import Mathlib

/-!
# Verification of the confidential-gke-app HTTP service

Shallow embedding of `src/app/app.py`: a Flask application with a single
route `@app.route('/')` whose handler returns `jsonify({"message": "Hello
from a Confidential GKE container!"})`, and a `__main__` block that runs
`app.run(host='0.0.0.0', port=int(os.environ.get('PORT', 5000)))`.

The embedding models:
* Python `int()` applied to the result of `os.environ.get('PORT', 5000)`
  (a string when the variable is set, the integer `5000` when it is not);
* Flask/Werkzeug request dispatch for the app's route table (exact rule
  match; automatic `HEAD`/`OPTIONS` methods; 404 for unmatched paths,
  405 for matched path with a method outside the rule's method set);
* `flask.jsonify` (Python `json.dumps` with `sort_keys=True`,
  `ensure_ascii=True`, default separators, plus a trailing newline, served
  with the `application/json` content type);
* the CPython top level: an exception escaping `__main__` terminates the
  process with exit status 1 and a traceback on standard error.
-/

/-! ## Python `int()` on strings

`int(s)` for a `str` argument: optional surrounding ASCII whitespace, an
optional sign, then a nonempty run of decimal digits in which single
underscores may appear between digits.  (CPython also accepts other Unicode
whitespace and digits; the environment values relevant here are ASCII.)
-/

def isPyWs (c : Char) : Bool :=
  c = ' ' ∨ c = '\t' ∨ c = '\n' ∨ c = '\x0d' ∨ c = '\x0b' ∨ c = '\x0c'

def isPyDigit (c : Char) : Bool :=
  '0' ≤ c ∧ c ≤ '9'

/-- Value of a digit run, with single underscores allowed between digits.
The boolean records whether the previous character was a digit (so the run
may neither start nor end with `_`, nor contain `__`). -/
def pyDigitsVal : List Char → Nat → Bool → Option Nat
  | [], acc, true => some acc
  | [], _, false => none
  | c :: cs, acc, lastDigit =>
    if isPyDigit c then pyDigitsVal cs (10 * acc + (c.toNat - 48)) true
    else if c = '_' ∧ lastDigit then pyDigitsVal cs acc false
    else none

def stripPyWs (cs : List Char) : List Char :=
  ((cs.dropWhile isPyWs).reverse.dropWhile isPyWs).reverse

/-- Python `int(s)` for a string `s`: `some n` on success, `none` when
`int` would raise `ValueError`. -/
def pythonInt? (s : String) : Option Int :=
  match stripPyWs s.data with
  | '+' :: rest => (pyDigitsVal rest 0 false).map Int.ofNat
  | '-' :: rest => (pyDigitsVal rest 0 false).map (fun n => -(n : Int))
  | rest => (pyDigitsVal rest 0 false).map Int.ofNat

/-! ## `os.environ.get('PORT', 5000)` and the `__main__` block -/

/-- `os.environ.get(key, default)` returns the variable's string value when
set, and otherwise the default — here the Python `int` `5000`. -/
inductive EnvValue where
  | str (v : String)
  | int (v : Int)
deriving DecidableEq, Repr

def envGetPort (env : List (String × String)) : EnvValue :=
  match env.lookup "PORT" with
  | some v => EnvValue.str v
  | none => EnvValue.int 5000

def intErrMsg (s : String) : String :=
  "ValueError: invalid literal for int() with base 10: " ++ s

/-- Python `int(x)` where `x` is either a string or already an int
(the two shapes `os.environ.get('PORT', 5000)` can produce). -/
def pyIntOf : EnvValue → Except String Int
  | EnvValue.int n => Except.ok n
  | EnvValue.str s =>
    match pythonInt? s with
    | some n => Except.ok n
    | none => Except.error (intErrMsg s)

/-- The `__main__` block: compute the port, then `app.run` binds the
listening socket.  `bind` abstracts the operating-system bind on
`0.0.0.0:port` (it fails for a port in use, insufficient privilege, or a
value outside the socket port range).  `Except.ok p` means the server is
bound and listening on `p`; `Except.error` carries the escaping exception's
message. -/
def mainRun (env : List (String × String)) (bind : Int → Except String Unit) :
    Except String Int :=
  match pyIntOf (envGetPort env) with
  | Except.error m => Except.error m
  | Except.ok p =>
    match bind p with
    | Except.error m => Except.error m
    | Except.ok _ => Except.ok p

/-- Observable outcome of launching `python app.py`: either the process is
serving on a port, or it terminated with an exit status and stderr text. -/
inductive ProcessOutcome where
  | serving (port : Int)
  | exited (code : Nat) (stderrText : String)
deriving DecidableEq, Repr

/-- CPython prints a traceback for an uncaught exception. -/
def pyTraceback (m : String) : String :=
  "Traceback (most recent call last):\n" ++ m

/-- Launching the program: an exception escaping `__main__` makes CPython
exit with status 1 and the traceback on standard error. -/
def runAppMain (env : List (String × String)) (bind : Int → Except String Unit) :
    ProcessOutcome :=
  match mainRun env bind with
  | Except.ok p => ProcessOutcome.serving p
  | Except.error m => ProcessOutcome.exited 1 (pyTraceback m)

/-! ## JSON values, `json.dumps`, and a JSON reader

The payload of this service is a JSON object mapping string keys to string
values; `Json` models the fragment of JSON the service can emit (strings
and objects).  `dumps` follows `json.dumps` as `flask.jsonify` invokes it
(`ensure_ascii=True`, `sort_keys=True`, separators `", "` and `": "`); the
reader `parseJsonTop` accepts standard JSON text over this fragment.
-/

inductive Json where
  | str (s : String)
  | obj (members : List (String × Json))

/-- Lowercase hexadecimal digit, as CPython's `'\\u{0:04x}'` format
produces. -/
def hexDigitChar (n : Nat) : Char :=
  if n < 10 then Char.ofNat (48 + n) else Char.ofNat (87 + n)

def hex4 (n : Nat) : List Char :=
  [hexDigitChar (n / 4096 % 16), hexDigitChar (n / 256 % 16),
   hexDigitChar (n / 16 % 16), hexDigitChar (n % 16)]

/-- Escaping of one character by `json.dumps` with `ensure_ascii=True`:
everything outside printable ASCII becomes a `\uXXXX` escape (a surrogate
pair beyond the BMP). -/
def escChar (c : Char) : List Char :=
  if c = '"' then ['\\', '"']
  else if c = '\\' then ['\\', '\\']
  else if c = '\n' then ['\\', 'n']
  else if c = '\x0d' then ['\\', 'r']
  else if c = '\t' then ['\\', 't']
  else if c = '\x08' then ['\\', 'b']
  else if c = '\x0c' then ['\\', 'f']
  else if c.toNat < 0x20 ∨ c.toNat > 0x7e then
    if c.toNat ≤ 0xffff then '\\' :: 'u' :: hex4 c.toNat
    else
      ('\\' :: 'u' :: hex4 (0xd800 + (c.toNat - 0x10000) / 0x400)) ++
      ('\\' :: 'u' :: hex4 (0xdc00 + (c.toNat - 0x10000) % 0x400))
  else [c]

def encodeJsonString (s : String) : String :=
  String.mk ('"' :: s.data.foldr (fun c acc => escChar c ++ acc) ['"'])

/-- Keys are sorted by `sort_keys=True` in string order. -/
def keyLe (a b : String × Json) : Prop := a.1 ≤ b.1

instance : DecidableRel keyLe := fun a b => by
  unfold keyLe; infer_instance

/-- `json.dumps`, fuelled for the nested recursion through object members;
`dumps` below supplies fuel that is ample for any value. -/
def dumpsF : Nat → Json → String
  | 0, _ => ""
  | _, Json.str s => encodeJsonString s
  | fuel + 1, Json.obj ms =>
    "\x7b" ++
      String.intercalate ", "
        ((ms.insertionSort keyLe).map
          (fun kv => encodeJsonString kv.1 ++ ": " ++ dumpsF fuel kv.2)) ++
    "\x7d"

mutual

def jsonSize : Json → Nat
  | Json.str _ => 1
  | Json.obj ms => 1 + jsonMembersSize ms

def jsonMembersSize : List (String × Json) → Nat
  | [] => 0
  | (_, v) :: rest => 1 + jsonSize v + jsonMembersSize rest

end

def dumps (j : Json) : String :=
  dumpsF (jsonSize j) j

/-! ### JSON reader -/

def isJsonWs (c : Char) : Bool :=
  c = ' ' ∨ c = '\t' ∨ c = '\n' ∨ c = '\x0d'

def skipJsonWs : List Char → List Char
  | [] => []
  | c :: cs => if isJsonWs c then skipJsonWs cs else c :: cs

def hexVal? (c : Char) : Option Nat :=
  if '0' ≤ c ∧ c ≤ '9' then some (c.toNat - 48)
  else if 'a' ≤ c ∧ c ≤ 'f' then some (c.toNat - 87)
  else if 'A' ≤ c ∧ c ≤ 'F' then some (c.toNat - 55)
  else none

/-- Decoding of a single-character JSON escape (everything except
`\uXXXX`). -/
def unescapeChar (e : Char) : Option Char :=
  if e = '"' ∨ e = '\\' ∨ e = '/' then some e
  else if e = 'b' then some '\x08'
  else if e = 'f' then some '\x0c'
  else if e = 'n' then some '\n'
  else if e = 'r' then some '\x0d'
  else if e = 't' then some '\t'
  else none

/-- Body of a JSON string literal, after the opening quote; returns the
decoded characters and the input remaining after the closing quote.
Rejects unescaped control characters and (unlike CPython, whose strings
admit them) lone surrogate escapes, which no `Char` can carry. -/
def parseStringBody : List Char → Option (List Char × List Char)
  | [] => none
  | '"' :: cs => some ([], cs)
  | '\\' :: 'u' :: a :: b :: c :: d :: cs =>
    match hexVal? a, hexVal? b, hexVal? c, hexVal? d with
    | some ha, some hb, some hc, some hd =>
      let n := ha * 4096 + hb * 256 + hc * 16 + hd
      if n < 0xd800 then
        (parseStringBody cs).map (fun p => (Char.ofNat n :: p.1, p.2))
      else if n ≤ 0xdbff then
        match cs with
        | '\\' :: 'u' :: a2 :: b2 :: c2 :: d2 :: cs2 =>
          match hexVal? a2, hexVal? b2, hexVal? c2, hexVal? d2 with
          | some ha2, some hb2, some hc2, some hd2 =>
            let lo := ha2 * 4096 + hb2 * 256 + hc2 * 16 + hd2
            if 0xdc00 ≤ lo ∧ lo ≤ 0xdfff then
              (parseStringBody cs2).map
                (fun p =>
                  (Char.ofNat (0x10000 + (n - 0xd800) * 0x400 + (lo - 0xdc00))
                    :: p.1, p.2))
            else none
          | _, _, _, _ => none
        | _ => none
      else if n ≤ 0xdfff then none
      else (parseStringBody cs).map (fun p => (Char.ofNat n :: p.1, p.2))
    | _, _, _, _ => none
  | '\\' :: e :: cs =>
    match unescapeChar e with
    | some decoded => (parseStringBody cs).map (fun p => (decoded :: p.1, p.2))
    | none => none
  | c :: cs =>
    if c.toNat < 0x20 then none
    else (parseStringBody cs).map (fun p => (c :: p.1, p.2))

/-- Nonempty member list of a JSON object, up to and including the closing
brace; `pv` parses each member's value, `fuel` bounds the number of
members. -/
def parseMembers (pv : List Char → Option (Json × List Char)) :
    Nat → List Char → Option (List (String × Json) × List Char)
  | 0, _ => none
  | fuel + 1, cs =>
    match skipJsonWs cs with
    | '"' :: rest =>
      match parseStringBody rest with
      | none => none
      | some (key, rest2) =>
        match skipJsonWs rest2 with
        | ':' :: rest3 =>
          match pv rest3 with
          | none => none
          | some (v, rest4) =>
            match skipJsonWs rest4 with
            | ',' :: rest5 =>
              (parseMembers pv fuel rest5).map
                (fun p => ((String.mk key, v) :: p.1, p.2))
            | '\x7d' :: rest5 => some ([(String.mk key, v)], rest5)
            | _ => none
        | _ => none
    | _ => none

/-- One JSON value over the string/object fragment; `fuel` bounds the
nesting depth (any fuel exceeding the input length suffices). -/
def parseValue : Nat → List Char → Option (Json × List Char)
  | 0, _ => none
  | fuel + 1, cs =>
    match skipJsonWs cs with
    | '"' :: rest =>
      (parseStringBody rest).map (fun p => (Json.str (String.mk p.1), p.2))
    | '\x7b' :: rest =>
      match skipJsonWs rest with
      | '\x7d' :: rest2 => some (Json.obj [], rest2)
      | _ =>
        (parseMembers (parseValue fuel) (rest.length + 1) rest).map
          (fun p => (Json.obj p.1, p.2))
    | _ => none

/-- Parse a complete JSON document (over the string/object fragment):
surrounding whitespace allowed, nothing may follow the value. -/
def parseJsonTop (s : String) : Option Json :=
  match parseValue (s.length + 1) s.data with
  | some (j, rest) => if skipJsonWs rest = [] then some j else none
  | none => none

/-! ## HTTP requests, responses, and Flask dispatch -/

/-- An incoming HTTP request: the app's handler sees none of the headers,
query string, or body, but dispatch receives the full request. -/
structure Request where
  method : String
  path : String
  headers : List (String × String)
  queryString : String
deriving DecidableEq, Repr

structure Response where
  status : Nat
  contentType : String
  body : String
deriving DecidableEq, Repr

/-- `flask.jsonify(obj)`: a 200 response whose body is `json.dumps` of the
object followed by a newline, with mimetype `application/json`. -/
def jsonify (j : Json) : Response :=
  { status := 200
    contentType := "application/json"
    body := dumps j ++ "\n" }

/-- The dict literal in the handler body. -/
def helloDict : Json :=
  Json.obj [("message", Json.str "Hello from a Confidential GKE container!")]

/-- The route handler at `app.py` line 7: returns
`jsonify({"message": "Hello from a Confidential GKE container!"})`.
It reads nothing from the request. -/
def hello_confidential_world (_ : Request) : Response :=
  jsonify helloDict

/-- A Flask URL rule: the rule string, the allowed methods, the view
function.  `@app.route('/')` registers methods `GET` plus the automatic
`HEAD` and `OPTIONS`. -/
structure Route where
  rule : String
  methods : List String
  handler : Request → Response

/-- The app's route table: the single rule registered by
`@app.route('/')`. -/
def appRoutes : List Route :=
  [{ rule := "/"
     methods := ["GET", "HEAD", "OPTIONS"]
     handler := hello_confidential_world }]

/-- Werkzeug's default 404 response for an unmatched URL. -/
def notFoundResponse : Response :=
  { status := 404
    contentType := "text/html; charset=utf-8"
    body := "The requested URL was not found on the server. If you entered the URL manually please check your spelling and try again." }

/-- Werkzeug's default 405 response for a matched URL whose rule does not
allow the request method. -/
def methodNotAllowedResponse : Response :=
  { status := 405
    contentType := "text/html; charset=utf-8"
    body := "The method is not allowed for the requested URL." }

def findRoute (routes : List Route) (path : String) : Option Route :=
  routes.find? (fun r => r.rule = path)

/-- Flask/Werkzeug dispatch: an exact rule match runs the view function
when the method is allowed, yields 405 when the path matches but the
method does not, and 404 when no rule matches the path. -/
def dispatch (routes : List Route) (req : Request) : Response :=
  match findRoute routes req.path with
  | none => notFoundResponse
  | some r =>
    if req.method ∈ r.methods then r.handler req else methodNotAllowedResponse

/-- Serving one request: the response, plus the service state afterwards.
The state of this service is its route table (the only module-level
object, `app`); the handler body is a single `return` of a fresh response,
so serving passes the state through untouched. -/
def serve (routes : List Route) (req : Request) : Response × List Route :=
  (dispatch routes req, routes)

/-- Serving a sequence of requests, threading the service state. -/
def serveMany (routes : List Route) : List Request → List Response × List Route
  | [] => ([], routes)
  | req :: rest =>
    let step := serve routes req
    let restResult := serveMany step.2 rest
    (step.1 :: restResult.1, restResult.2)

example : dumps helloDict =
    "\x7b\"message\": \"Hello from a Confidential GKE container!\"\x7d" := by rfl

example : parseJsonTop (dumps helloDict ++ "\n") = some helloDict := by rfl

/-! ## Sample requests used by the witnesses -/

def sampleGetRoot : Request :=
  { method := "GET", path := "/",
    headers := [("Accept", "application/json"), ("X-Request-Id", "42")],
    queryString := "debug=1" }

def sampleGetRootPlain : Request :=
  { method := "GET", path := "/", headers := [], queryString := "" }

def sampleGetUnknown : Request :=
  { method := "GET", path := "/unknown", headers := [], queryString := "" }

def samplePostRoot : Request :=
  { method := "POST", path := "/", headers := [], queryString := "" }

/-! ## Shared lemmas -/

/-- Dispatch of any `GET` request for `/` runs the view function, which
returns `jsonify` of the hello dict. -/
theorem dispatch_root_get (req : Request) (hm : req.method = "GET")
    (hp : req.path = "/") : dispatch appRoutes req = jsonify helloDict := by
  simp [dispatch, findRoute, appRoutes, List.find?, hp, hm,
    hello_confidential_world]

/-- Serving any sequence of requests leaves the route table unchanged. -/
theorem serveMany_snd_eq (routes : List Route) :
    ∀ reqs : List Request, (serveMany routes reqs).2 = routes := by
  intro reqs
  induction reqs with
  | nil => rfl
  | cons r rest ih => simp [serveMany, serve, ih]

theorem pyTraceback_ne_empty (m : String) : pyTraceback m ≠ "" := by
  intro h
  have hlen := congrArg String.length h
  simp [pyTraceback, String.length_append] at hlen
  exact absurd hlen.1 (by decide)

example : pythonInt? "8080" = some 8080 := by decide
example : pythonInt? " -42 " = some (-42) := by decide
example : pythonInt? "abc" = none := by decide
example : pythonInt? "5_0" = some 50 := by decide
example : pythonInt? "5_" = none := by decide
example : pythonInt? "" = none := by decide
example : runAppMain [] (fun _ => Except.ok ()) = ProcessOutcome.serving 5000 := by decide
example : runAppMain [("PORT", "abc")] (fun _ => Except.ok ()) =
    ProcessOutcome.exited 1 (pyTraceback (intErrMsg "abc")) := by decide

/-! ## Claims -/

/-- C1: for every HTTP GET request to path `/`, the service responds with
status 200 and a body that, parsed as JSON, equals the mapping
`message ↦ Hello from a Confidential GKE container!` exactly. -/
theorem root_get_responds_200_hello_json (req : Request)
    (hm : req.method = "GET") (hp : req.path = "/") :
    (dispatch appRoutes req).status = 200 ∧
    parseJsonTop (dispatch appRoutes req).body = some helloDict := by
  rw [dispatch_root_get req hm hp]
  exact ⟨rfl, rfl⟩

/-- C1 witness: a concrete GET `/` request with headers and a query
string. -/
theorem root_get_responds_200_hello_json_witness :
    (dispatch appRoutes sampleGetRoot).status = 200 ∧
    parseJsonTop (dispatch appRoutes sampleGetRoot).body = some helloDict :=
  root_get_responds_200_hello_json sampleGetRoot rfl rfl

/-- C2 counterexample: with `PORT` set to the unparsable string
`not-a-number` (and the operating system willing to bind any port), the
service does not serve on port 5000: `int()` raises `ValueError` and the
process exits with status 1. -/
theorem unparsable_port_no_5000_fallback :
    runAppMain [("PORT", "not-a-number")] (fun _ => Except.ok ()) ≠
      ProcessOutcome.serving 5000 ∧
    runAppMain [("PORT", "not-a-number")] (fun _ => Except.ok ()) =
      ProcessOutcome.exited 1 (pyTraceback (intErrMsg "not-a-number")) := by
  constructor
  · decide
  · rfl

/-- C2 amended: at startup, if the `PORT` environment variable is set but
its value is not parsable as an integer, `int()` raises `ValueError` and
the process terminates with exit status 1 and a traceback on standard
error; the fixed default 5000 applies only when `PORT` is unset. -/
theorem unparsable_port_fails_startup (env : List (String × String))
    (bind : Int → Except String Unit) (s : String)
    (hs : env.lookup "PORT" = some s) (hbad : pythonInt? s = none) :
    runAppMain env bind =
      ProcessOutcome.exited 1 (pyTraceback (intErrMsg s)) ∧
    pyTraceback (intErrMsg s) ≠ "" := by
  refine ⟨?_, pyTraceback_ne_empty _⟩
  simp [runAppMain, mainRun, pyIntOf, envGetPort, hs, hbad]

/-- C2 amended witness: `PORT=abc` terminates startup with the
`ValueError` traceback. -/
theorem unparsable_port_fails_startup_witness :
    runAppMain [("PORT", "abc")] (fun _ => Except.ok ()) =
      ProcessOutcome.exited 1 (pyTraceback (intErrMsg "abc")) ∧
    pyTraceback (intErrMsg "abc") ≠ "" :=
  unparsable_port_fails_startup [("PORT", "abc")] (fun _ => Except.ok ())
    "abc" rfl (by decide)

/-- C3: at startup, if the `PORT` environment variable is unset (and the
bind on 5000 succeeds), the service binds to port 5000. -/
theorem unset_port_binds_5000 (env : List (String × String))
    (bind : Int → Except String Unit) (h : env.lookup "PORT" = none)
    (hb : bind 5000 = Except.ok ()) :
    runAppMain env bind = ProcessOutcome.serving 5000 := by
  simp [runAppMain, mainRun, pyIntOf, envGetPort, h, hb]

/-- C3 witness: an environment without `PORT` and an always-succeeding
bind. -/
theorem unset_port_binds_5000_witness :
    runAppMain [("HOME", "/root")] (fun _ => Except.ok ()) =
      ProcessOutcome.serving 5000 :=
  unset_port_binds_5000 [("HOME", "/root")] (fun _ => Except.ok ()) rfl rfl

/-- C4: starting the service with `PORT` set to a string that `int()`
parses as the integer N (and with the operating system accepting the bind
on N) binds the listener to TCP port N. -/
theorem valid_port_binds_n (env : List (String × String))
    (bind : Int → Except String Unit) (s : String) (n : Int)
    (hs : env.lookup "PORT" = some s) (hparse : pythonInt? s = some n)
    (hb : bind n = Except.ok ()) :
    runAppMain env bind = ProcessOutcome.serving n := by
  simp [runAppMain, mainRun, pyIntOf, envGetPort, hs, hparse, hb]

/-- C4 witness: `PORT=8080` serves on port 8080. -/
theorem valid_port_binds_n_witness :
    runAppMain [("PORT", "8080")] (fun _ => Except.ok ()) =
      ProcessOutcome.serving 8080 :=
  valid_port_binds_n [("PORT", "8080")] (fun _ => Except.ok ()) "8080" 8080
    rfl (by decide) rfl

/-- C5: for every HTTP GET request to path `/`, the response carries the
content type `application/json`. -/
theorem root_get_content_type_json (req : Request)
    (hm : req.method = "GET") (hp : req.path = "/") :
    (dispatch appRoutes req).contentType = "application/json" := by
  rw [dispatch_root_get req hm hp]
  rfl

/-- C5 witness: the concrete plain GET `/` request. -/
theorem root_get_content_type_json_witness :
    (dispatch appRoutes sampleGetRootPlain).contentType = "application/json" :=
  root_get_content_type_json sampleGetRootPlain rfl rfl

/-- C6: every request whose path is not `/` gets the framework's default
not-found response, status 404. -/
theorem unmatched_path_404 (req : Request) (hp : req.path ≠ "/") :
    dispatch appRoutes req = notFoundResponse ∧
    (dispatch appRoutes req).status = 404 := by
  have hne : ¬(("/" : String) = req.path) := fun h => hp h.symm
  have hd : dispatch appRoutes req = notFoundResponse := by
    simp [dispatch, findRoute, appRoutes, List.find?, hne]
  exact ⟨hd, by rw [hd]; rfl⟩

/-- C6 witness: `GET /unknown` yields the 404 response. -/
theorem unmatched_path_404_witness :
    dispatch appRoutes sampleGetUnknown = notFoundResponse ∧
    (dispatch appRoutes sampleGetUnknown).status = 404 :=
  unmatched_path_404 sampleGetUnknown (by decide)

/-- C7: a bind failure at startup terminates the process with exit status
1 (non-zero) and a traceback on standard error; and the process exits
abnormally only when `int()` fails on `PORT` or the bind fails — the only
failure modes. -/
theorem bind_failure_fatal_and_only_failure_mode
    (env : List (String × String)) (bind : Int → Except String Unit) :
    (∀ p msg, pyIntOf (envGetPort env) = Except.ok p →
      bind p = Except.error msg →
      runAppMain env bind = ProcessOutcome.exited 1 (pyTraceback msg) ∧
      pyTraceback msg ≠ "") ∧
    (∀ code stderrText,
      runAppMain env bind = ProcessOutcome.exited code stderrText →
      code ≠ 0 ∧ stderrText ≠ "" ∧
      ((∃ m, pyIntOf (envGetPort env) = Except.error m) ∨
       (∃ p m, pyIntOf (envGetPort env) = Except.ok p ∧
          bind p = Except.error m))) := by
  constructor
  · intro p msg hok hbind
    refine ⟨?_, pyTraceback_ne_empty msg⟩
    simp [runAppMain, mainRun, hok, hbind]
  · intro code stderrText hrun
    cases hpi : pyIntOf (envGetPort env) with
    | error m =>
      simp [runAppMain, mainRun, hpi] at hrun
      refine ⟨by omega, ?_, Or.inl ⟨m, rfl⟩⟩
      rw [← hrun.2]
      exact pyTraceback_ne_empty m
    | ok p =>
      cases hb : bind p with
      | error m =>
        simp [runAppMain, mainRun, hpi, hb] at hrun
        refine ⟨by omega, ?_, Or.inr ⟨p, m, rfl, hb⟩⟩
        rw [← hrun.2]
        exact pyTraceback_ne_empty m
      | ok u =>
        simp [runAppMain, mainRun, hpi, hb] at hrun

/-- C7 witness: a bind refused with `EADDRINUSE` on the default port. -/
theorem bind_failure_fatal_witness :
    runAppMain []
        (fun _ => Except.error "OSError: [Errno 98] Address already in use") =
      ProcessOutcome.exited 1
        (pyTraceback "OSError: [Errno 98] Address already in use") ∧
    pyTraceback "OSError: [Errno 98] Address already in use" ≠ "" :=
  (bind_failure_fatal_and_only_failure_mode []
      (fun _ => Except.error "OSError: [Errno 98] Address already in use")).1
    5000 "OSError: [Errno 98] Address already in use" rfl rfl

/-- C8: serving a request mutates no service state: one request, and any
sequence of requests, leave the route table (the module-level `app`)
exactly as it was. -/
theorem handler_has_no_side_effects (req : Request) (reqs : List Request) :
    (serve appRoutes req).2 = appRoutes ∧
    (serveMany appRoutes reqs).2 = appRoutes :=
  ⟨rfl, serveMany_snd_eq appRoutes reqs⟩

/-- C9: a request for `/` whose method is none of GET, HEAD, OPTIONS gets
the 405 method-not-allowed response, not the 404 not-found one. -/
theorem root_wrong_method_405 (req : Request) (hp : req.path = "/")
    (h1 : req.method ≠ "GET") (h2 : req.method ≠ "HEAD")
    (h3 : req.method ≠ "OPTIONS") :
    dispatch appRoutes req = methodNotAllowedResponse ∧
    (dispatch appRoutes req).status = 405 ∧
    (dispatch appRoutes req).status ≠ 404 := by
  have hd : dispatch appRoutes req = methodNotAllowedResponse := by
    simp [dispatch, findRoute, appRoutes, List.find?, hp, h1, h2, h3]
  exact ⟨hd, by rw [hd]; rfl, by rw [hd]; decide⟩

/-- C9 witness: `POST /` yields 405. -/
theorem root_wrong_method_405_witness :
    dispatch appRoutes samplePostRoot = methodNotAllowedResponse ∧
    (dispatch appRoutes samplePostRoot).status = 405 ∧
    (dispatch appRoutes samplePostRoot).status ≠ 404 :=
  root_wrong_method_405 samplePostRoot rfl (by decide) (by decide) (by decide)

/-- C10: the handler is deterministic: two GET `/` requests, differing in
headers, query string, and in the requests previously served, receive
identical responses. -/
theorem root_get_deterministic (prev : List Request) (r1 r2 : Request)
    (h1m : r1.method = "GET") (h1p : r1.path = "/")
    (h2m : r2.method = "GET") (h2p : r2.path = "/") :
    (serve (serveMany appRoutes prev).2 r1).1 = (serve appRoutes r2).1 := by
  rw [serveMany_snd_eq appRoutes prev]
  show dispatch appRoutes r1 = dispatch appRoutes r2
  rw [dispatch_root_get r1 h1m h1p, dispatch_root_get r2 h2m h2p]

/-- C10 witness: after a served POST, a GET `/` with headers and query
string matches a fresh plain GET `/`. -/
theorem root_get_deterministic_witness :
    (serve (serveMany appRoutes [samplePostRoot]).2 sampleGetRoot).1 =
      (serve appRoutes sampleGetRootPlain).1 :=
  root_get_deterministic [samplePostRoot] sampleGetRoot sampleGetRootPlain
    rfl rfl rfl rfl
